import Mathlib

/-!
Shallow embedding of `src/prerender-service.js`, a small Express service that
renders a URL in a headless browser, caches the markup, and serves it.

The embedding covers:

- the render cache (a `NodeCache` constructed with `stdTTL: 3600`,
  `checkperiod: 600`, lines 11–14): modelled as an association list from key
  to (value, expiresAt) with expiry enforced by `get`;
- the URL validation `new URL(url)` (line 41): modelled by `parseURL`, an
  executable distillation of the WHATWG URL constructor semantics;
- the `GET /render` handler (lines 32–110): `handleRender`, a pure function
  of a renderer test double, the cache state, the current time and the query
  parameter, returning the HTTP response together with an effect record
  (cache lookups, renderer invocations with their configuration, browser
  acquisition/close, resulting cache);
- the `POST /clear-cache` handler (lines 113–124): `handleClearCache`.

Time is in seconds (`NodeCache` TTLs are given in seconds).
-/

set_option autoImplicit false

namespace Prerender

/-! ## Render cache

`NodeCache` with `stdTTL: 3600` (service line 11–14).  An entry is a triple
(key, value, expiresAt); `set` stamps `expiresAt = now + stdTTL`.  Following
the documented store semantics, an entry is visible to `get` only while
`now < expiresAt`; once expired it behaves as absent whether or not it has
been physically purged (the `checkperiod: 600` sweep is a memory
optimization, not part of visibility, so it is not modelled). -/

abbrev Cache := List (String × String × Nat)

def stdTTL : Nat := 3600

/-- Cache lookup: the first entry with the key, if unexpired (line 49). -/
def cacheGet (c : Cache) (now : Nat) (k : String) : Option String :=
  match c.find? (fun e => e.1 == k) with
  | some e => if now < e.2.2 then some e.2.1 else none
  | none => none

/-- Cache store: overwrites any entry for the key, with expiry
`now + stdTTL` (line 94). -/
def cacheSet (c : Cache) (now : Nat) (k v : String) : Cache :=
  (k, v, now + stdTTL) :: c.filter (fun e => e.1 != k)

/-- Single-key removal, `cache.del` (line 118). -/
def cacheDel (c : Cache) (k : String) : Cache :=
  c.filter (fun e => e.1 != k)

/-- Full flush, `cache.flushAll` (line 121). -/
def cacheFlushAll : Cache := []

/-! ## URL validation

The service validates with `new URL(url)` (line 41) and rejects with 400
when the constructor throws.  `parseURL` distills the WHATWG URL
constructor used by Node for an absolute input (no base): the input must
begin with a scheme — an ASCII letter followed by letters, digits, `+`,
`-`, `.` — terminated by `:`; special schemes (http, https, ws, wss, ftp)
then require a nonempty host (leading slashes are supplied leniently),
while non-special schemes (mailto, data, ...) parse with or without an
authority, so a host is NOT required for the constructor to succeed.
Userinfo/port splitting, IP and percent-encoding validation, and input
trimming are beyond what any claim exercises and are not modelled. -/

structure URLRecord where
  scheme : String
  host : String
  deriving Repr, DecidableEq

def isSchemeChar (c : Char) : Bool :=
  c.isAlphanum || c == '+' || c == '-' || c == '.'

/-- Splits the input at the first colon, returning the characters before
and after it. -/
def splitAtColon : List Char → Option (List Char × List Char)
  | [] => none
  | c :: rest =>
    if c == ':' then some ([], rest)
    else
      match splitAtColon rest with
      | some (pre, post) => some (c :: pre, post)
      | none => none

def allSchemeChars : List Char → Bool
  | [] => true
  | c :: rest => isSchemeChar c && allSchemeChars rest

def specialSchemes : List String := ["http", "https", "ws", "wss", "ftp"]

def hostTerminator (c : Char) : Bool :=
  c == '/' || c == '?' || c == '#' || c == '\\'

/-- WHATWG parse of an absolute URL string, as performed by `new URL(url)`
at line 41: `none` means the constructor throws. -/
def parseURL (s : String) : Option URLRecord :=
  match splitAtColon s.toList with
  | none => none
  | some (schemeChars, rest) =>
    match schemeChars with
    | [] => none
    | c0 :: _ =>
      if c0.isAlpha && allSchemeChars schemeChars then
        let scheme := String.mk (schemeChars.map Char.toLower)
        if scheme ∈ specialSchemes then
          let afterSlashes := rest.dropWhile (fun c => c == '/' || c == '\\')
          let hostChars := afterSlashes.takeWhile (fun c => ¬ hostTerminator c)
          if hostChars.isEmpty then none
          else some ⟨scheme, String.mk hostChars⟩
        else if scheme == "file" then
          let afterSlashes := rest.dropWhile (fun c => c == '/' || c == '\\')
          some ⟨scheme, String.mk (afterSlashes.takeWhile (fun c => ¬ hostTerminator c))⟩
        else
          match rest with
          | '/' :: '/' :: tail =>
            some ⟨scheme, String.mk (tail.takeWhile (fun c => ¬ hostTerminator c))⟩
          | _ => some ⟨scheme, ""⟩
      else none

/-! ## Render orchestration, `GET /render` (lines 32–110)

The handler is embedded as a pure function.  The external pieces it drives
are passed in:

- `Renderer`: the whole browser interaction of the try block
  (lines 60–91: `puppeteer.launch`, `newPage`, `setUserAgent`,
  `setViewport`, `goto`, `waitForTimeout`, `content`), abstracted as a
  function from the page configuration and URL to an outcome.
  `launchFail` is a failure before a browser session exists
  (`puppeteer.launch` throws); `pageFail` is any failure after the session
  was acquired (navigation timeout, script error, ...); `ok` is the
  rendered markup returned by `page.content()`.
- `closeFails`: whether `browser.close()` in the finally block throws.

Alongside the HTTP response the function returns an `Effects` record of
the observable side effects, so that claims about what is and is not
invoked can be stated. -/

structure RenderConfig where
  navigationTimeoutMs : Nat
  waitUntil : String
  settleDelayMs : Nat
  viewportWidth : Nat
  viewportHeight : Nat
  userAgent : String
  deriving Repr, DecidableEq

/-- Page configuration fixed by the handler: `setUserAgent` (line 76),
`setViewport` (line 79), `goto` options (lines 82–85), `waitForTimeout`
(line 88). -/
def renderConfig : RenderConfig :=
  { navigationTimeoutMs := 30000
    waitUntil := "networkidle0"
    settleDelayMs := 2000
    viewportWidth := 1200
    viewportHeight := 800
    userAgent := "Mozilla/5.0 (compatible; PrerenderBot/1.0)" }

inductive RenderOutcome where
  | launchFail (msg : String)
  | pageFail (msg : String)
  | ok (html : String)
  deriving Repr, DecidableEq

abbrev Renderer := RenderConfig → String → RenderOutcome

inductive HttpResponse where
  /-- A body sent with `Content-Type: text/html` (lines 52, 97). -/
  | htmlRes (status : Nat) (body : String)
  /-- A JSON error object: `error` field, optional `message` field
  (lines 36, 43, 101–104). -/
  | jsonErr (status : Nat) (error : String) (message : Option String)
  /-- A JSON `message` object (lines 119, 122). -/
  | jsonMsg (status : Nat) (message : String)
  deriving Repr, DecidableEq

def HttpResponse.status : HttpResponse → Nat
  | .htmlRes s _ => s
  | .jsonErr s _ _ => s
  | .jsonMsg s _ => s

structure Effects where
  /-- Number of `cache.get` calls performed (line 49). -/
  cacheLookups : Nat
  /-- Renderer invocations, each with the page configuration and URL used. -/
  invocations : List (RenderConfig × String)
  /-- Whether a browser session was acquired (`puppeteer.launch` returned). -/
  browserAcquired : Bool
  /-- Whether `browser.close()` was called in the finally block (line 107). -/
  closeAttempted : Bool
  /-- Whether that `browser.close()` call itself threw. -/
  closeFailed : Bool
  /-- The cache state after the request. -/
  cacheAfter : Cache
  deriving Repr, DecidableEq

/-- The render path of the handler (lines 57–109), reached on a cache
miss: launch the browser, drive the page, cache and serve the markup on
success (lines 91–97), answer 500 with the diagnostic message on any
caught error (lines 99–104), and close the browser in the finally block
whenever one was launched (lines 105–109).  The response is sent before
the finally block runs, so a failing close never alters it. -/
def renderPath (renderer : Renderer) (closeFails : Bool) (c : Cache)
    (now : Nat) (u : String) : HttpResponse × Effects :=
  let cacheKey := "prerender:" ++ u
  match renderer renderConfig u with
  | .launchFail msg =>
    (.jsonErr 500 "Failed to prerender page" (some msg),
     ⟨0, [(renderConfig, u)], false, false, false, c⟩)
  | .pageFail msg =>
    (.jsonErr 500 "Failed to prerender page" (some msg),
     ⟨0, [(renderConfig, u)], true, true, closeFails, c⟩)
  | .ok html =>
    (.htmlRes 200 html,
     ⟨0, [(renderConfig, u)], true, true, closeFails,
      cacheSet c now cacheKey html⟩)

/-- The `GET /render` handler (lines 32–110).  `urlParam` is
`req.query.url` (`none` when absent).  The guard `if (!url)` at line 35 is
a truthiness test, so the empty string is also rejected as missing.  The
cache-hit guard `if (cachedHtml)` at line 50 is likewise a truthiness
test: a cached empty string falls through to the render path. -/
def handleRender (renderer : Renderer) (closeFails : Bool) (c : Cache)
    (now : Nat) (urlParam : Option String) : HttpResponse × Effects :=
  match urlParam with
  | none =>
    (.jsonErr 400 "URL parameter is required" none, ⟨0, [], false, false, false, c⟩)
  | some u =>
    if u = "" then
      (.jsonErr 400 "URL parameter is required" none, ⟨0, [], false, false, false, c⟩)
    else
      match parseURL u with
      | none =>
        (.jsonErr 400 "Invalid URL provided" none, ⟨0, [], false, false, false, c⟩)
      | some _ =>
        let cacheKey := "prerender:" ++ u
        match cacheGet c now cacheKey with
        | some cachedHtml =>
          if cachedHtml = "" then
            let pe := renderPath renderer closeFails c now u
            (pe.1, { pe.2 with cacheLookups := pe.2.cacheLookups + 1 })
          else
            (.htmlRes 200 cachedHtml, ⟨1, [], false, false, false, c⟩)
        | none =>
          let pe := renderPath renderer closeFails c now u
          (pe.1, { pe.2 with cacheLookups := pe.2.cacheLookups + 1 })

/-- The `POST /clear-cache` handler (lines 113–124).  `urlBody` is the
optional `url` field of the JSON body; `if (url)` at line 116 is a
truthiness test, so an empty string also takes the flush branch. -/
def handleClearCache (c : Cache) (urlBody : Option String) :
    HttpResponse × Cache :=
  match urlBody with
  | some u =>
    if u = "" then (.jsonMsg 200 "All cache cleared", cacheFlushAll)
    else (.jsonMsg 200 ("Cache cleared for " ++ u), cacheDel c ("prerender:" ++ u))
  | none => (.jsonMsg 200 "All cache cleared", cacheFlushAll)

/-! ## Renderer test doubles used by witnesses and counterexamples -/

def rendererFresh : Renderer := fun _ _ => .ok "<html>FRESH</html>"

def rendererTimeout : Renderer := fun _ _ => .pageFail "timeout"

def rendererEmpty : Renderer := fun _ _ => .ok ""

/-! ## Cache lemmas -/

lemma cacheGet_set_self (c : Cache) (now : Nat) (k v : String) (now2 : Nat) :
    cacheGet (cacheSet c now k v) now2 k =
      if now2 < now + stdTTL then some v else none := by
  unfold cacheGet cacheSet
  rw [List.find?_cons_of_pos _ (by simp)]

lemma find?_filter_bne (c : Cache) (k k2 : String) (h : k2 ≠ k) :
    (c.filter (fun e => e.1 != k)).find? (fun e => e.1 == k2) =
      c.find? (fun e => e.1 == k2) := by
  induction c with
  | nil => rfl
  | cons e tl ih =>
    by_cases he : e.1 = k
    · rw [List.filter_cons, if_neg (by simp [he])]
      rw [List.find?_cons_of_neg _ (by simp [he]; exact fun hh => h hh.symm)]
      exact ih
    · rw [List.filter_cons, if_pos (by simp [he])]
      by_cases h2 : e.1 = k2
      · rw [List.find?_cons_of_pos _ (by simp [h2]),
          List.find?_cons_of_pos _ (by simp [h2])]
      · rw [List.find?_cons_of_neg _ (by simp [h2]),
          List.find?_cons_of_neg _ (by simp [h2])]
        exact ih

lemma cacheGet_del_self (c : Cache) (k : String) (now : Nat) :
    cacheGet (cacheDel c k) now k = none := by
  unfold cacheGet cacheDel
  rw [List.find?_eq_none.mpr]
  intro e he
  have hne := (List.mem_filter.mp he).2
  simp only [bne_iff_ne, ne_eq, decide_eq_true_eq] at hne
  simpa using hne

lemma cacheGet_del_ne (c : Cache) (k k2 : String) (h : k2 ≠ k) (now : Nat) :
    cacheGet (cacheDel c k) now k2 = cacheGet c now k2 := by
  unfold cacheGet cacheDel
  rw [find?_filter_bne c k k2 h]

lemma cacheGet_set_ne (c : Cache) (now : Nat) (k v : String) (now2 : Nat)
    (k2 : String) (h : k2 ≠ k) :
    cacheGet (cacheSet c now k v) now2 k2 = cacheGet c now2 k2 := by
  unfold cacheGet cacheSet
  rw [List.find?_cons_of_neg _ (by simp; exact fun hh => h hh.symm)]
  rw [find?_filter_bne c k k2 h]

lemma cacheDel_absent (c : Cache) (k : String)
    (h : ∀ e ∈ c, e.1 ≠ k) : cacheDel c k = c := by
  unfold cacheDel
  rw [List.filter_eq_self.mpr]
  intro e he
  simpa [bne_iff_ne] using h e he

/-! ## Claims about the cache -/

/-- C2: for every key `k` and value `v`, after `set(k, v)` an immediate
`get(k)` returns `v`; once the fixed TTL (`stdTTL = 3600` seconds) has
elapsed since the set, `get(k)` returns absent.  The expiry comparison is
performed inside `get`, so this holds whether or not the entry has been
physically purged. -/
theorem C2_cache_ttl (c : Cache) (now : Nat) (k v : String) :
    cacheGet (cacheSet c now k v) now k = some v ∧
    ∀ later : Nat, now + stdTTL ≤ later →
      cacheGet (cacheSet c now k v) later k = none := by
  constructor
  · rw [cacheGet_set_self,
      if_pos (Nat.lt_add_of_pos_right (by decide : 0 < stdTTL))]
  · intro later hl
    rw [cacheGet_set_self, if_neg (Nat.not_lt.mpr hl)]

theorem C2_cache_ttl_witness :
    cacheGet (cacheSet [] 5 "prerender:https://example.com" "<html>CACHED</html>")
      5 "prerender:https://example.com" = some "<html>CACHED</html>" ∧
    cacheGet (cacheSet [] 5 "prerender:https://example.com" "<html>CACHED</html>")
      3605 "prerender:https://example.com" = none :=
  ⟨(C2_cache_ttl [] 5 "prerender:https://example.com" "<html>CACHED</html>").1,
   (C2_cache_ttl [] 5 "prerender:https://example.com" "<html>CACHED</html>").2
     3605 (by decide)⟩

/-- C8: deleting via `POST /clear-cache` with a nonempty `url` removes
exactly the key `prerender:` + url: a `get` of that key afterwards is
absent, a `get` of any other key `k2` is unchanged, and when no entry with
the key exists the cache is left untouched (deleting an absent key is a
no-op). -/
theorem C8_single_key_delete (c : Cache) (u k2 : String) (now : Nat)
    (hu : u ≠ "") (hk : k2 ≠ "prerender:" ++ u) :
    cacheGet (handleClearCache c (some u)).2 now ("prerender:" ++ u) = none ∧
    cacheGet (handleClearCache c (some u)).2 now k2 = cacheGet c now k2 ∧
    ((∀ e ∈ c, e.1 ≠ "prerender:" ++ u) → (handleClearCache c (some u)).2 = c) := by
  have hcc : (handleClearCache c (some u)).2 = cacheDel c ("prerender:" ++ u) := by
    simp only [handleClearCache]
    rw [if_neg hu]
  rw [hcc]
  exact ⟨cacheGet_del_self c _ now, cacheGet_del_ne c _ k2 hk now,
    fun h => cacheDel_absent c _ h⟩

theorem C8_single_key_delete_witness :
    cacheGet (handleClearCache
        [("prerender:https://a.com", "<html>A</html>", 50),
         ("prerender:https://b.com", "<html>B</html>", 50)]
        (some "https://a.com")).2 0 "prerender:https://a.com" = none ∧
    cacheGet (handleClearCache
        [("prerender:https://a.com", "<html>A</html>", 50),
         ("prerender:https://b.com", "<html>B</html>", 50)]
        (some "https://a.com")).2 0 "prerender:https://b.com" =
      cacheGet
        [("prerender:https://a.com", "<html>A</html>", 50),
         ("prerender:https://b.com", "<html>B</html>", 50)]
        0 "prerender:https://b.com" := by
  have h := C8_single_key_delete
    [("prerender:https://a.com", "<html>A</html>", 50),
     ("prerender:https://b.com", "<html>B</html>", 50)]
    "https://a.com" "prerender:https://b.com" 0 (by decide) (by decide)
  exact ⟨h.1, h.2.1⟩

/-- C9: `POST /clear-cache` with no `url` flushes the whole cache: every
key reads as absent afterwards, and performing the clear twice leaves the
same state as performing it once. -/
theorem C9_idempotent_clear (c : Cache) (now : Nat) (k : String) :
    cacheGet (handleClearCache c none).2 now k = none ∧
    (handleClearCache (handleClearCache c none).2 none).2 =
      (handleClearCache c none).2 :=
  ⟨rfl, rfl⟩

/-! ## Handler lemmas -/

lemma parseURL_ne_empty {u : String} {r : URLRecord}
    (hp : parseURL u = some r) : u ≠ "" := by
  intro h
  rw [h] at hp
  exact Option.noConfusion hp

/-- On a cache hit with a nonempty cached value, the handler serves the
cached value directly. -/
lemma handleRender_hit (renderer : Renderer) (b : Bool) (c : Cache)
    (now : Nat) (u v : String) (r : URLRecord) (hp : parseURL u = some r)
    (hv : cacheGet c now ("prerender:" ++ u) = some v) (hne : v ≠ "") :
    handleRender renderer b c now (some u) =
      (.htmlRes 200 v, ⟨1, [], false, false, false, c⟩) := by
  simp only [handleRender, if_neg (parseURL_ne_empty hp), hp, hv, if_neg hne]

/-- On a cache miss — no entry, or an entry holding the empty string,
since the hit guard at line 50 is a truthiness test — the handler runs
the render path. -/
lemma handleRender_render (renderer : Renderer) (b : Bool) (c : Cache)
    (now : Nat) (u : String) (r : URLRecord) (hp : parseURL u = some r)
    (hmiss : cacheGet c now ("prerender:" ++ u) = none ∨
      cacheGet c now ("prerender:" ++ u) = some "") :
    handleRender renderer b c now (some u) =
      match renderer renderConfig u with
      | .launchFail msg =>
        (.jsonErr 500 "Failed to prerender page" (some msg),
         ⟨1, [(renderConfig, u)], false, false, false, c⟩)
      | .pageFail msg =>
        (.jsonErr 500 "Failed to prerender page" (some msg),
         ⟨1, [(renderConfig, u)], true, true, b, c⟩)
      | .ok html =>
        (.htmlRes 200 html,
         ⟨1, [(renderConfig, u)], true, true, b,
          cacheSet c now ("prerender:" ++ u) html⟩) := by
  rcases hmiss with h | h <;>
    simp only [handleRender, if_neg (parseURL_ne_empty hp), hp, h, if_pos rfl,
      renderPath] <;>
    cases renderer renderConfig u <;> rfl

/-! ## Claims about the `GET /render` handler -/

/-- C1 (amended): for every request `GET /render?url=U` where `U` parses
as a URL and the cache holds a NONEMPTY value for the key
`prerender:` + `U`, the response is exactly that cached value with status
200 and Content-Type text/html, the renderer is never invoked, and the
cache is unchanged. -/
theorem C1_cache_hit (renderer : Renderer) (b : Bool) (c : Cache)
    (now : Nat) (u v : String) (r : URLRecord) (hp : parseURL u = some r)
    (hv : cacheGet c now ("prerender:" ++ u) = some v) (hne : v ≠ "") :
    handleRender renderer b c now (some u) =
      (.htmlRes 200 v, ⟨1, [], false, false, false, c⟩) :=
  handleRender_hit renderer b c now u v r hp hv hne

theorem C1_cache_hit_witness :
    handleRender rendererFresh false
        [("prerender:https://example.com", "<html>CACHED</html>", 50)] 0
        (some "https://example.com") =
      (.htmlRes 200 "<html>CACHED</html>",
       ⟨1, [], false, false, false,
        [("prerender:https://example.com", "<html>CACHED</html>", 50)]⟩) :=
  C1_cache_hit rendererFresh false
    [("prerender:https://example.com", "<html>CACHED</html>", 50)] 0
    "https://example.com" "<html>CACHED</html>" ⟨"https", "example.com"⟩
    rfl rfl (by decide)

/-- C1 counterexample, refuting the claim as stated: (a) with the cache
holding a value (the empty string) for the key, the renderer IS invoked,
because the hit guard is a truthiness test; (b) with the cache holding a
value for the key of a string that the URL constructor rejects, the
response is the 400 error, not the cached body. -/
theorem C1_counterexample :
    (cacheGet [("prerender:https://example.com", "", 50)] 0
        "prerender:https://example.com" = some "" ∧
     (handleRender rendererFresh false
        [("prerender:https://example.com", "", 50)] 0
        (some "https://example.com")).2.invocations.length = 1) ∧
    (cacheGet [("prerender:not-a-url", "<html>CACHED</html>", 50)] 0
        "prerender:not-a-url" = some "<html>CACHED</html>" ∧
     (handleRender rendererFresh false
        [("prerender:not-a-url", "<html>CACHED</html>", 50)] 0
        (some "not-a-url")).1 = .jsonErr 400 "Invalid URL provided" none) :=
  ⟨⟨rfl, rfl⟩, ⟨rfl, rfl⟩⟩

/-- C10: when the cache holds an unexpired entry whose value is the empty
string, the hit guard `if (cachedHtml)` (a truthiness test, not a
presence test) treats it as a miss: the renderer is invoked again and the
request takes the render path. -/
theorem C10_empty_value_is_miss (renderer : Renderer) (b : Bool)
    (c : Cache) (now : Nat) (u : String) (r : URLRecord)
    (hp : parseURL u = some r)
    (hv : cacheGet c now ("prerender:" ++ u) = some "") :
    (handleRender renderer b c now (some u)).2.invocations.length = 1 ∧
    (handleRender renderer b c now (some u)).1 =
      (renderPath renderer b c now u).1 := by
  rw [handleRender_render renderer b c now u r hp (Or.inr hv)]
  unfold renderPath
  cases renderer renderConfig u <;> exact ⟨rfl, rfl⟩

theorem C10_empty_value_is_miss_witness :
    (handleRender rendererFresh false
        [("prerender:https://example.com", "", 50)] 0
        (some "https://example.com")).2.invocations.length = 1 ∧
    (handleRender rendererFresh false
        [("prerender:https://example.com", "", 50)] 0
        (some "https://example.com")).1 =
      (renderPath rendererFresh false
        [("prerender:https://example.com", "", 50)] 0
        "https://example.com").1 :=
  C10_empty_value_is_miss rendererFresh false
    [("prerender:https://example.com", "", 50)] 0 "https://example.com"
    ⟨"https", "example.com"⟩ rfl rfl

/-- C3: for every request whose render attempt fails — at launch
(`launchFail`) or after the session was acquired, e.g. a navigation
timeout or page script error (`pageFail`) — the response is the 500
structured error whose `message` field carries the underlying diagnostic
message, the renderer was invoked exactly once (no retry), and the cache
is left exactly as it was (nothing is written on the failure path). -/
theorem C3_render_failure (renderer : Renderer) (b : Bool) (c : Cache)
    (now : Nat) (u : String) (r : URLRecord) (msg : String)
    (hp : parseURL u = some r)
    (hmiss : cacheGet c now ("prerender:" ++ u) = none ∨
      cacheGet c now ("prerender:" ++ u) = some "")
    (hfail : renderer renderConfig u = .launchFail msg ∨
      renderer renderConfig u = .pageFail msg) :
    (handleRender renderer b c now (some u)).1 =
      .jsonErr 500 "Failed to prerender page" (some msg) ∧
    (handleRender renderer b c now (some u)).2.invocations.length = 1 ∧
    (handleRender renderer b c now (some u)).2.cacheAfter = c := by
  rw [handleRender_render renderer b c now u r hp hmiss]
  rcases hfail with h | h <;> rw [h] <;> exact ⟨rfl, rfl, rfl⟩

theorem C3_render_failure_witness :
    (handleRender rendererTimeout false [] 0 (some "https://example.com")).1 =
      .jsonErr 500 "Failed to prerender page" (some "timeout") ∧
    (handleRender rendererTimeout false [] 0
        (some "https://example.com")).2.invocations.length = 1 ∧
    (handleRender rendererTimeout false [] 0
        (some "https://example.com")).2.cacheAfter = [] :=
  C3_render_failure rendererTimeout false [] 0 "https://example.com"
    ⟨"https", "example.com"⟩ "timeout" rfl (Or.inl rfl) (Or.inr rfl)

/-- C4 (amended): a successful fresh render returns the markup with
status 200 and writes it (with a fresh TTL) into the cache under the
request key as part of producing the response; PROVIDED the markup is
nonempty, a subsequent identical request before the TTL expires is
served from the cache without invoking the renderer again. -/
theorem C4_fresh_render (renderer : Renderer) (b : Bool) (c : Cache)
    (now : Nat) (u : String) (r : URLRecord) (html : String)
    (hp : parseURL u = some r)
    (hmiss : cacheGet c now ("prerender:" ++ u) = none ∨
      cacheGet c now ("prerender:" ++ u) = some "")
    (hok : renderer renderConfig u = .ok html) :
    handleRender renderer b c now (some u) =
      (.htmlRes 200 html,
       ⟨1, [(renderConfig, u)], true, true, b,
        cacheSet c now ("prerender:" ++ u) html⟩) ∧
    (html ≠ "" → ∀ later : Nat, later < now + stdTTL →
      handleRender renderer b (cacheSet c now ("prerender:" ++ u) html)
          later (some u) =
        (.htmlRes 200 html,
         ⟨1, [], false, false, false,
          cacheSet c now ("prerender:" ++ u) html⟩)) := by
  constructor
  · rw [handleRender_render renderer b c now u r hp hmiss, hok]
  · intro hne later hl
    exact handleRender_hit renderer b _ later u html r hp
      (by rw [cacheGet_set_self, if_pos hl]) hne

theorem C4_fresh_render_witness :
    handleRender rendererFresh false [] 0 (some "https://x.com") =
      (.htmlRes 200 "<html>FRESH</html>",
       ⟨1, [(renderConfig, "https://x.com")], true, true, false,
        cacheSet [] 0 "prerender:https://x.com" "<html>FRESH</html>"⟩) ∧
    handleRender rendererFresh false
        (cacheSet [] 0 "prerender:https://x.com" "<html>FRESH</html>") 60
        (some "https://x.com") =
      (.htmlRes 200 "<html>FRESH</html>",
       ⟨1, [], false, false, false,
        cacheSet [] 0 "prerender:https://x.com" "<html>FRESH</html>"⟩) := by
  have h := C4_fresh_render rendererFresh false [] 0 "https://x.com"
    ⟨"https", "x.com"⟩ "<html>FRESH</html>" rfl (Or.inl rfl) rfl
  exact ⟨h.1, h.2 (by decide) 60 (by decide)⟩

/-- C4 counterexample, refuting the claim as stated: (a) when the render
produces the empty string, the entry written to the cache is falsy, so
the immediately subsequent identical request invokes the renderer again;
(b) even with nonempty markup, a subsequent identical request after the
TTL has elapsed invokes the renderer again.  In both cases the first
conjunct shows the first request succeeded and the last shows the second
request was NOT served from cache (one more renderer invocation). -/
theorem C4_counterexample :
    ((handleRender rendererEmpty false [] 0 (some "https://x.com")).1 =
        .htmlRes 200 "" ∧
     (handleRender rendererEmpty false
        (handleRender rendererEmpty false [] 0
          (some "https://x.com")).2.cacheAfter 0
        (some "https://x.com")).2.invocations.length = 1) ∧
    ((handleRender rendererFresh false [] 0 (some "https://x.com")).1 =
        .htmlRes 200 "<html>FRESH</html>" ∧
     (handleRender rendererFresh false
        (handleRender rendererFresh false [] 0
          (some "https://x.com")).2.cacheAfter 3600
        (some "https://x.com")).2.invocations.length = 1) :=
  ⟨⟨rfl, rfl⟩, ⟨rfl, rfl⟩⟩

/-- C5 (amended): when the `url` query parameter is missing, empty (the
guard at line 35 is a truthiness test), or rejected by the URL
constructor — which requires a scheme but NOT a host — the response is a
400 error and nothing else happens: no cache lookup, no renderer
invocation, no browser, and the cache is unchanged. -/
theorem C5_invalid_input (renderer : Renderer) (b : Bool) (c : Cache)
    (now : Nat) (urlParam : Option String)
    (h : urlParam = none ∨ urlParam = some "" ∨
      ∃ u, urlParam = some u ∧ parseURL u = none) :
    (handleRender renderer b c now urlParam).1.status = 400 ∧
    (handleRender renderer b c now urlParam).2 =
      ⟨0, [], false, false, false, c⟩ := by
  rcases h with h | h | ⟨u, hu, hpu⟩
  · subst h
    exact ⟨rfl, rfl⟩
  · subst h
    exact ⟨rfl, rfl⟩
  · subst hu
    by_cases he : u = ""
    · subst he
      exact ⟨rfl, rfl⟩
    · simp only [handleRender, if_neg he, hpu]
      simp [HttpResponse.status]

theorem C5_invalid_input_witness :
    (handleRender rendererFresh false [] 0 (some "not-a-url")).1.status = 400 ∧
    (handleRender rendererFresh false [] 0 (some "not-a-url")).2 =
      ⟨0, [], false, false, false, []⟩ :=
  C5_invalid_input rendererFresh false [] 0 (some "not-a-url")
    (Or.inr (Or.inr ⟨"not-a-url", rfl, rfl⟩))

/-- C5 counterexample, refuting the claim as stated: the input
`mailto:someone@example.com` has a scheme but NO host (the URL record
host is empty), yet the handler does not answer 4xx — it performs the
cache lookup and invokes the renderer, because `new URL` accepts any
non-special scheme without an authority. -/
theorem C5_counterexample :
    (parseURL "mailto:someone@example.com").map URLRecord.host = some "" ∧
    (handleRender rendererFresh false [] 0
        (some "mailto:someone@example.com")).1 =
      .htmlRes 200 "<html>FRESH</html>" ∧
    (handleRender rendererFresh false [] 0
        (some "mailto:someone@example.com")).2.invocations.length = 1 :=
  ⟨rfl, rfl, rfl⟩

/-! ## Resource and configuration lemmas -/

lemma renderPath_close (renderer : Renderer) (b : Bool) (c : Cache)
    (now : Nat) (u : String) :
    (renderPath renderer b c now u).2.closeAttempted =
      (renderPath renderer b c now u).2.browserAcquired := by
  unfold renderPath
  cases renderer renderConfig u <;> rfl

lemma renderPath_fst (renderer : Renderer) (b b2 : Bool) (c : Cache)
    (now : Nat) (u : String) :
    (renderPath renderer b c now u).1 = (renderPath renderer b2 c now u).1 := by
  unfold renderPath
  cases renderer renderConfig u <;> rfl

lemma renderPath_invocations (renderer : Renderer) (b : Bool) (c : Cache)
    (now : Nat) (u : String) :
    (renderPath renderer b c now u).2.invocations = [(renderConfig, u)] := by
  unfold renderPath
  cases renderer renderConfig u <;> rfl

lemma handleRender_close (renderer : Renderer) (b : Bool) (c : Cache)
    (now : Nat) (urlParam : Option String) :
    (handleRender renderer b c now urlParam).2.closeAttempted =
      (handleRender renderer b c now urlParam).2.browserAcquired := by
  cases urlParam with
  | none => rfl
  | some u =>
    simp only [handleRender]
    split
    · rfl
    split
    · rfl
    split
    · split
      · exact renderPath_close renderer b c now u
      · rfl
    · exact renderPath_close renderer b c now u

lemma handleRender_fst_indep (renderer : Renderer) (b b2 : Bool) (c : Cache)
    (now : Nat) (urlParam : Option String) :
    (handleRender renderer b c now urlParam).1 =
      (handleRender renderer b2 c now urlParam).1 := by
  cases urlParam with
  | none => rfl
  | some u =>
    simp only [handleRender]
    split
    · rfl
    split
    · rfl
    split
    · split
      · exact renderPath_fst renderer b b2 c now u
      · rfl
    · exact renderPath_fst renderer b b2 c now u

lemma handleRender_invocations (renderer : Renderer) (b : Bool) (c : Cache)
    (now : Nat) (urlParam : Option String) :
    (handleRender renderer b c now urlParam).2.invocations = [] ∨
    ∃ u, urlParam = some u ∧
      (handleRender renderer b c now urlParam).2.invocations =
        [(renderConfig, u)] := by
  cases urlParam with
  | none => exact Or.inl rfl
  | some u =>
    simp only [handleRender]
    split
    · exact Or.inl rfl
    split
    · exact Or.inl rfl
    split
    · split
      · exact Or.inr ⟨u, rfl, renderPath_invocations renderer b c now u⟩
      · exact Or.inl rfl
    · exact Or.inr ⟨u, rfl, renderPath_invocations renderer b c now u⟩

/-- C6: on every exit path of a render attempt in which the browser
session was acquired — success or failure after launch — the finally
block closes the session; and whether the close itself fails (the
`closeFails` input) never changes the primary response produced for the
request, since the response is sent before the finally block runs. -/
theorem C6_session_release (renderer : Renderer) (b : Bool) (c : Cache)
    (now : Nat) (urlParam : Option String) :
    ((handleRender renderer b c now urlParam).2.browserAcquired = true →
      (handleRender renderer b c now urlParam).2.closeAttempted = true) ∧
    (handleRender renderer b c now urlParam).1 =
      (handleRender renderer false c now urlParam).1 := by
  constructor
  · intro h
    rw [handleRender_close]
    exact h
  · exact handleRender_fst_indep renderer b false c now urlParam

theorem C6_session_release_witness :
    (handleRender rendererTimeout true [] 0
        (some "https://example.com")).2.closeAttempted = true ∧
    (handleRender rendererTimeout true [] 0 (some "https://example.com")).1 =
      (handleRender rendererTimeout false [] 0
        (some "https://example.com")).1 :=
  ⟨(C6_session_release rendererTimeout true [] 0
      (some "https://example.com")).1 rfl,
   (C6_session_release rendererTimeout true [] 0
      (some "https://example.com")).2⟩

/-- C7: every renderer invocation performed by the handler uses the one
fixed page configuration: a 30000 ms navigation timeout waiting for
networkidle0, a 2000 ms settle delay after that, a 1200 by 800 viewport,
and the fixed identifying user-agent string
`Mozilla/5.0 (compatible; PrerenderBot/1.0)`. -/
theorem C7_render_config (renderer : Renderer) (b : Bool) (c : Cache)
    (now : Nat) (urlParam : Option String) (cfg : RenderConfig) (u : String)
    (h : (cfg, u) ∈ (handleRender renderer b c now urlParam).2.invocations) :
    cfg = renderConfig ∧
    renderConfig.navigationTimeoutMs = 30000 ∧
    renderConfig.waitUntil = "networkidle0" ∧
    renderConfig.settleDelayMs = 2000 ∧
    renderConfig.viewportWidth = 1200 ∧
    renderConfig.viewportHeight = 800 ∧
    renderConfig.userAgent = "Mozilla/5.0 (compatible; PrerenderBot/1.0)" := by
  refine ⟨?_, rfl, rfl, rfl, rfl, rfl, rfl⟩
  rcases handleRender_invocations renderer b c now urlParam with h0 | ⟨u2, _, h1⟩
  · rw [h0] at h
    cases h
  · rw [h1] at h
    have hh := List.mem_singleton.mp h
    have := congrArg Prod.fst hh
    simpa using this

theorem C7_render_config_witness :
    renderConfig = renderConfig ∧
    renderConfig.navigationTimeoutMs = 30000 ∧
    renderConfig.waitUntil = "networkidle0" ∧
    renderConfig.settleDelayMs = 2000 ∧
    renderConfig.viewportWidth = 1200 ∧
    renderConfig.viewportHeight = 800 ∧
    renderConfig.userAgent = "Mozilla/5.0 (compatible; PrerenderBot/1.0)" :=
  C7_render_config rendererFresh false [] 0 (some "https://x.com")
    renderConfig "https://x.com" (by decide)

end Prerender
